import Mathlib

/-!
Shallow embedding of the type-classification core of the cs-config-generator
repository: the override/improvement resolver (`apply_type_improvements.py`),
the classification rule chain (`type_classification_rules.py`), the
usage-statistics classifier (`numeric_detection_rules.py`), and the
popularity annotator (`popularity_rules.py` / `command_classification.py`).
File I/O, printing and the provenance-manifest serialization are not part of
the decision logic and are not modelled. Python floats are modelled as exact
fractions (`Frac`); `inf`/`nan` literals, float rounding/overflow and digit
underscores in numeric literals are outside the model — no verified claim
exercises them.
-/

namespace ConfigGen

/-- Exact fraction `num / den` with a positive denominator by construction,
kept unnormalized. Kernel-computable stand-in for the numeric value of a
Python float. -/
structure Frac where
  num : Int
  den : Nat
deriving DecidableEq

/-- Embed a natural number. -/
def Frac.ofNat (n : Nat) : Frac := ⟨n, 1⟩

/-- Embed an integer. -/
def Frac.ofInt (n : Int) : Frac := ⟨n, 1⟩

/-- Fraction addition (denominators multiply, stay positive). -/
def Frac.add (a b : Frac) : Frac := ⟨a.num * b.den + b.num * a.den, a.den * b.den⟩

/-- Fraction multiplication. -/
def Frac.mul (a b : Frac) : Frac := ⟨a.num * b.num, a.den * b.den⟩

/-- Numeric equality of fractions (cross multiplication). -/
def Frac.beq (a b : Frac) : Bool := a.num * b.den = b.num * a.den

/-- Numeric strict order of fractions (cross multiplication; correct for the
positive denominators maintained here). -/
def Frac.blt (a b : Frac) : Bool := a.num * b.den < b.num * a.den

/-- Truncation toward zero: the behaviour of Python `int()` on a float. -/
def Frac.trunc (q : Frac) : Int := q.num.tdiv (q.den : Int)

/-- Ratio of two naturals as a fraction (used only under a positive guard). -/
def Frac.ratio (a b : Nat) : Frac := ⟨a, b⟩

/-- Model of a JSON/Python runtime value as it occurs in the command data
files. -/
inductive PyVal where
  | none
  | bool (b : Bool)
  | int (n : Int)
  | float (q : Frac)
  | str (s : String)
deriving DecidableEq

/-- Numeric view of a Python value, used for Python `==` semantics
(`True == 1`, `1 == 1.0`, ...). -/
def PyVal.toNum : PyVal → Option Frac
  | .bool b => some (.ofNat (if b then 1 else 0))
  | .int n => some (.ofInt n)
  | .float q => some q
  | _ => Option.none

/-- Python `==` on the modelled values: numbers (bool/int/float) compare by
numeric value, strings by content, `None` only to `None`. -/
def pyEq : PyVal → PyVal → Bool
  | .str a, .str b => a = b
  | .none, .none => true
  | a, b =>
    match a.toNum, b.toNum with
    | some x, some y => x.beq y
    | _, _ => false

/-- Python truthiness of the modelled values. -/
def pyTruthy : PyVal → Bool
  | .none => false
  | .bool b => b
  | .int n => ¬ (n = 0)
  | .float q => !(q.beq (.ofNat 0))
  | .str s => ¬ (s = "")

/-- The whitespace set stripped by Python `str.strip()`. -/
def pySpace (c : Char) : Bool :=
  c = ' ' || c = '\t' || c = '\n' || c = '\r' || c = '\x0b' || c = '\x0c'

/-- Model of Python `str.strip()`: drop leading and trailing whitespace. -/
def strTrim (s : String) : String :=
  ⟨(((s.data.dropWhile pySpace).reverse.dropWhile pySpace).reverse)⟩

/-- ASCII lower-casing of one character (the identifiers and type tokens in
the data are ASCII, so this agrees with Python `str.lower()` on them). -/
def lowerChar (c : Char) : Char :=
  if 65 ≤ c.toNat ∧ c.toNat ≤ 90 then Char.ofNat (c.toNat + 32) else c

/-- Model of Python `str.lower()` (ASCII). -/
def strLower (s : String) : String := ⟨s.data.map lowerChar⟩

/-- Does the pattern occur at the head of the character list? -/
def matchesAt : List Char → List Char → Bool
  | [], _ => true
  | _ :: _, [] => false
  | a :: as, b :: bs => a = b && matchesAt as bs

/-- Does the pattern occur anywhere in the character list? -/
def hasSubAux (pat : List Char) : List Char → Bool
  | [] => pat.isEmpty
  | c :: rest => matchesAt pat (c :: rest) || hasSubAux pat rest

/-- Python `sub in hay` on strings. -/
def hasSub (hay sub : String) : Bool := hasSubAux sub.data hay.data

/-- Python `s.startswith(p)`. -/
def strStartsWith (s p : String) : Bool := matchesAt p.data s.data

/-- Decimal digits of a natural number (fuel-based, fuel `n+1` suffices). -/
def natReprAux : Nat → Nat → List Char
  | 0, _ => []
  | f + 1, n =>
    if n < 10 then [Char.ofNat (48 + n)]
    else natReprAux f (n / 10) ++ [Char.ofNat (48 + n % 10)]

/-- Decimal representation of a natural number. -/
def natRepr (n : Nat) : String := ⟨natReprAux (n + 1) n⟩

/-- Decimal representation of an integer (Python `str(int)`). -/
def intRepr (n : Int) : String :=
  if n < 0 then ⟨'-' :: natReprAux (n.natAbs + 1) n.natAbs⟩ else natRepr n.toNat

/-- Python `str()` of the modelled values. The float case prints the exact
fraction as a stand-in for Python float repr; the code under verification
only ever asks whether the result is empty after stripping, which agrees. -/
def pyStr : PyVal → String
  | .none => "None"
  | .bool true => "True"
  | .bool false => "False"
  | .int n => intRepr n
  | .float q => intRepr q.num ++ "/" ++ natRepr q.den
  | .str s => s

/-- Decimal digits to a natural number (base 10, most significant first). -/
def digitsToNat (cs : List Char) : Nat :=
  cs.foldl (fun a c => a * 10 + (c.toNat - 48)) 0

/-- Consume an optional leading sign, returning the sign factor and the rest. -/
def parseSign : List Char → Int × List Char
  | '-' :: rest => (-1, rest)
  | '+' :: rest => (1, rest)
  | cs => (1, cs)

/-- Split a leading run of decimal digits from the rest. -/
def splitDigits (cs : List Char) : List Char × List Char :=
  (cs.takeWhile Char.isDigit, cs.dropWhile Char.isDigit)

/-- Value of a fractional digit block (the digits right of the decimal point). -/
def fracValue (ds : List Char) : Frac := ⟨digitsToNat ds, 10 ^ ds.length⟩

/-- Ten raised to an integer power, as a fraction. -/
def pow10 (e : Int) : Frac :=
  if 0 ≤ e then ⟨(10 : Nat) ^ e.toNat, 1⟩ else ⟨1, (10 : Nat) ^ (-e).toNat⟩

/-- Mantissa/exponent assembly for `pyParseFloat`: sign, integer digits,
optional fractional digits, and the unconsumed tail (which may hold a
decimal exponent and must otherwise be empty). -/
def pyParseFloatAux (sign : Int) (ip : List Char) (fp : Option (List Char))
    (rest : List Char) : Option Frac :=
  if ip.isEmpty && (fp.getD []).isEmpty then Option.none
  else
    let mant : Frac := (Frac.ofInt sign).mul ((Frac.ofNat (digitsToNat ip)).add (fracValue (fp.getD [])))
    match rest with
    | [] => some mant
    | c :: rest2 =>
      if c = 'e' || c = 'E' then
        let ps := parseSign rest2
        let pd := splitDigits ps.2
        if pd.1.isEmpty || !pd.2.isEmpty then Option.none
        else some (mant.mul (pow10 (ps.1 * (digitsToNat pd.1 : Int))))
      else Option.none

/-- Model of Python `float(s)` on decimal literals, as an exact fraction:
optional surrounding whitespace, optional sign, digits with an optional
fractional part, optional decimal exponent. `Option.none` models the
`ValueError` Python raises on everything else (`inf`/`nan` and digit
underscores are outside the model). -/
def pyParseFloat (s : String) : Option Frac :=
  let cs0 := (strTrim s).data
  let p1 := parseSign cs0
  let p2 := splitDigits p1.2
  match p2.2 with
  | '.' :: rest =>
      let p3 := splitDigits rest
      pyParseFloatAux p1.1 p2.1 (some p3.1) p3.2
  | cs => pyParseFloatAux p1.1 p2.1 Option.none cs

/-- Model of Python `int(s)` on base-10 literals: optional surrounding
whitespace, optional sign, then digits only. `Option.none` models the
`ValueError` on everything else (digit underscores are outside the model). -/
def pyParseInt (s : String) : Option Int :=
  let cs0 := (strTrim s).data
  let p1 := parseSign cs0
  let p2 := splitDigits p1.2
  if p2.1.isEmpty || !p2.2.isEmpty then Option.none
  else some (p1.1 * (digitsToNat p2.1 : Int))

/-- The `TYPE_NORMALIZATION` table of `apply_type_improvements.py`. -/
def TYPE_NORMALIZATION : List (String × String) :=
  [("float32", "float"), ("int32", "int"), ("uint32", "uint32"),
   ("uint64", "uint64"), ("bool", "bool"), ("action", "command"),
   ("command", "command"), ("enum", "int"), ("string", "string")]

/-- `normalize_type` of `apply_type_improvements.py`: canonicalize a type
spelling case-insensitively; falsy input (the empty string) returns as-is,
unknown keys pass through lower-cased and stripped. -/
def normalize_type (t : String) : String :=
  if t = "" then t
  else
    let key := strLower (strTrim t)
    (List.lookup key TYPE_NORMALIZATION).getD key

/-- `ALLOWED_BOOL_STRINGS` of `apply_type_improvements.py`. -/
def ALLOWED_BOOL_STRINGS : List String := ["1", "0", "true", "false"]

/-- `is_valid_bool_value` of `apply_type_improvements.py`: an allowed boolean
representation is a Python bool, a number equal to 0 or 1, or a string whose
stripped lower-case form is one of `1,0,true,false`. -/
def is_valid_bool_value : PyVal → Bool
  | .bool _ => true
  | .int n => n = 0 ∨ n = 1
  | .float q => q.beq (.ofNat 0) || q.beq (.ofNat 1)
  | .str s => ALLOWED_BOOL_STRINGS.contains (strLower (strTrim s))
  | .none => false

/-- `coerce_default_value` of `apply_type_improvements.py`. Python branch
order is kept; note that a Python bool passes `isinstance(v, int)`, so in
the int/bitmask/uint branch a bool is returned unchanged. -/
def coerce_default_value (new_type : String) (current_value : PyVal) : PyVal :=
  if new_type = "bool" then
    match current_value with
    | .bool b => .bool b
    | .int n => .bool (¬ (n = 0))
    | .float q => .bool (!(q.beq (.ofNat 0)))
    | .str s =>
      let v := strLower (strTrim s)
      if v = "1" ∨ v = "true" then .bool true
      else if v = "0" ∨ v = "false" then .bool false
      else .bool (¬ (v = "" ∨ v = "0" ∨ v = "false" ∨ v = "no"))
    | .none => .bool false
  else if new_type = "int" ∨ new_type = "bitmask" ∨ new_type = "uint" then
    match current_value with
    | .bool b => .bool b
    | .int n => .int n
    | .float q => .int q.trunc
    | .str s =>
      if s.data.contains '.' then
        match pyParseFloat s with
        | some q => .int q.trunc
        | Option.none => .int 0
      else
        match pyParseInt s with
        | some n => .int n
        | Option.none => .int 0
    | .none => .int 0
  else if new_type = "float" then
    match current_value with
    | .bool b => .float (.ofNat (if b then 1 else 0))
    | .int n => .float (.ofInt n)
    | .float q => .float q
    | .str s =>
      match pyParseFloat s with
      | some q => .float q
      | Option.none => .float (.ofNat 0)
    | .none => .float (.ofNat 0)
  else if new_type = "string" ∨ new_type = "vector2" ∨ new_type = "vector3" ∨
          new_type = "color" ∨ new_type = "command" then
    match current_value with
    | .none => .str ""
    | v => .str (pyStr v)
  else current_value

/-- The `uiData` object of a command: the two fields the resolver reads and
writes (`type`, `defaultValue`), plus the remaining fields carried opaquely. -/
structure UiData where
  type : Option String
  defaultValue : PyVal
  rest : List (String × PyVal)
deriving DecidableEq

/-- The `consoleData` object of a command: the raw console default plus the
remaining fields carried opaquely. -/
structure ConsoleData where
  defaultValue : PyVal
  rest : List (String × PyVal)
deriving DecidableEq

/-- A command record as processed by `apply_type_improvements.py`:
`cmd.get('command')`, an optional `uiData` object, an optional `consoleData`
object. -/
structure Command where
  name : Option String
  uiData : Option UiData
  consoleData : Option ConsoleData
deriving DecidableEq

/-- The per-run statistics dictionary of `apply_type_improvements`. -/
structure Stats where
  total : Nat
  manual_overrides_applied : Nat
  scraped_types_applied : Nat
  unknown_remaining : Nat
  skipped_no_uidata : Nat
  coerced_defaults : Nat
  bool_unparseable_skipped : Nat
  command_with_value_skipped : Nat
  string_scraped_skipped : Nat
deriving DecidableEq

/-- Initial statistics for a run over `n` commands. -/
def Stats.init (n : Nat) : Stats := ⟨n, 0, 0, 0, 0, 0, 0, 0, 0⟩

/-- The two strict validations of `apply_type_improvements`: a `bool` target
is dropped when the stored default is not a valid bool token, and a
`command` target is dropped when the raw console default is non-null and
non-empty after stripping. Returns the surviving candidate type and the
updated statistics. -/
def applyValidations (current_default raw_default : PyVal)
    (new_type : Option String) (st : Stats) : Option String × Stats :=
  let s1 :=
    if new_type = some "bool" ∧ is_valid_bool_value current_default = false then
      (Option.none,
       { st with bool_unparseable_skipped := st.bool_unparseable_skipped + 1 })
    else (new_type, st)
  if s1.1 = some "command" ∧ ¬ (raw_default = PyVal.none) ∧
      ¬ (strTrim (pyStr raw_default) = "") then
    (Option.none,
     { s1.2 with command_with_value_skipped := s1.2.command_with_value_skipped + 1 })
  else s1

/-- Python truthiness of the candidate type value (`None` and the empty
string are falsy). -/
def strTruthy : Option String → Bool
  | Option.none => false
  | some s => ¬ (s = "")

/-- Source selection of the `apply_type_improvements` loop: a manual
override always wins; otherwise a scraped type applies only to a command
whose current type is exactly `unknown`, and a scraped `string` makes the
loop `continue` (modelled by the outer `Option.none`). The inner value is
the candidate type (if any) with the statistics after counting the applied
source. -/
def chooseSource (manual_overrides scraped_types : List (String × String))
    (nm : Option String) (current_type : Option String) (st : Stats) :
    Option (Option String × Stats) :=
  match nm.bind (fun n => List.lookup n manual_overrides) with
  | some o =>
      some (some (normalize_type o),
            { st with manual_overrides_applied := st.manual_overrides_applied + 1 })
  | Option.none =>
    if current_type = some "unknown" then
      match nm.bind (fun n => List.lookup n scraped_types) with
      | some t =>
        if t = "string" then Option.none
        else some (some t,
                   { st with scraped_types_applied := st.scraped_types_applied + 1 })
      | Option.none => some (Option.none, st)
    else some (Option.none, st)

/-- Application step of the `apply_type_improvements` loop: a truthy
candidate type is written to `uiData.type`; when the type actually changes
and the coerced default differs (Python `==`) from the stored one, the
default is replaced and counted. -/
def applyToUi (ui : UiData) (current_type : Option String)
    (current_default : PyVal) (nt : Option String) (st1 : Stats) :
    UiData × Stats :=
  match nt with
  | some t =>
    if ¬ (t = "") then
      let uiT := { ui with type := some t }
      if current_type = some t then (uiT, st1)
      else
        let coerced := coerce_default_value t current_default
        if pyEq coerced current_default then (uiT, st1)
        else ({ uiT with defaultValue := coerced },
              { st1 with coerced_defaults := st1.coerced_defaults + 1 })
    else (ui, st1)
  | Option.none => (ui, st1)

/-- Tail of the `apply_type_improvements` loop: count a final type of
`unknown` in `unknown_remaining`. -/
def bumpUnknown (final_type : Option String) (st2 : Stats) : Stats :=
  if final_type = some "unknown" then
    { st2 with unknown_remaining := st2.unknown_remaining + 1 }
  else st2

/-- The loop body of `apply_type_improvements` (non-dry-run path) for one
command: pick a source (manual override first, else scraped type for
`unknown`-typed commands, skipping scraped `string`), run the strict
validations, write the new type and the coerced default where they apply,
and update the per-run statistics. Commands without `uiData` are counted
and returned unmodified. -/
def improveCommand (manual_overrides scraped_types : List (String × String))
    (st : Stats) (cmd : Command) : Command × Stats :=
  match cmd.uiData with
  | Option.none =>
      (cmd, { st with skipped_no_uidata := st.skipped_no_uidata + 1 })
  | some ui =>
    let raw_default := (cmd.consoleData.map ConsoleData.defaultValue).getD PyVal.none
    match chooseSource manual_overrides scraped_types cmd.name ui.type st with
    | Option.none =>
        (cmd, { st with string_scraped_skipped := st.string_scraped_skipped + 1 })
    | some (nt0, st0) =>
      let v := applyValidations ui.defaultValue raw_default nt0 st0
      let a := applyToUi ui ui.type ui.defaultValue v.1 v.2
      ({ cmd with uiData := some a.1 },
       bumpUnknown (if strTruthy v.1 then v.1 else ui.type) a.2)

/-- Sequential pass of `apply_type_improvements` over the command list,
threading the statistics. -/
def applyAll (manual_overrides scraped_types : List (String × String))
    (st : Stats) : List Command → List Command × Stats
  | [] => ([], st)
  | c :: cs =>
      let p := improveCommand manual_overrides scraped_types st c
      let r := applyAll manual_overrides scraped_types p.2 cs
      (p.1 :: r.1, r.2)

/-- `apply_type_improvements` (non-dry-run functional core): process every
command in order, starting from fresh statistics. -/
def apply_type_improvements (commands : List Command)
    (manual_overrides scraped_types : List (String × String)) :
    List Command × Stats :=
  applyAll manual_overrides scraped_types (Stats.init commands.length) commands

/-- Python dict assignment on an association list: replace the value at an
existing key in place, otherwise append the binding at the end. -/
def dictInsert (k v : String) : List (String × String) → List (String × String)
  | [] => [(k, v)]
  | (k', v') :: rest =>
      if k' = k then (k', v) :: rest else (k', v') :: dictInsert k v rest

/-- Does this command carry `uiData.type == 'unknown'`? -/
def isUnknownCmd (c : Command) : Bool :=
  match c.uiData with
  | some ui => ui.type = some "unknown"
  | Option.none => false

/-- The names of the `unknown`-typed commands (in list order). -/
def unknownNames (cmds : List Command) : List String :=
  (cmds.filter isUnknownCmd).filterMap Command.name

/-- The loop of `export_unknown_overrides`: walk the unknown command names
and add a placeholder binding for every name not among the pre-computed
existing (non-metadata) keys. -/
def addUnknowns (existing_keys : List String) (ns : List String)
    (ov : List (String × String)) : List (String × String) :=
  match ns with
  | [] => ov
  | c :: rest =>
      addUnknowns existing_keys rest
        (if existing_keys.contains c then ov else dictInsert c "unknown" ov)

/-- Names of a command list, `Option.none` when one is missing (the
`KeyError` of the Python list comprehension `[c['command'] for c in ...]`). -/
def namesOf : List Command → Option (List String)
  | [] => some []
  | c :: tl =>
    match c.name, namesOf tl with
    | some n, some ns => some (n :: ns)
    | _, _ => Option.none

/-- `export_unknown_overrides` of `apply_type_improvements.py` (functional
core, file round-trip elided): append every `unknown`-typed command name not
already present among the non-metadata keys, with value `'unknown'`.
`Option.none` models the `KeyError` Python raises when an `unknown`-typed
command record lacks the `'command'` key. -/
def export_unknown_overrides (overrides : List (String × String))
    (commands : List Command) : Option (List (String × String)) :=
  let existing_keys :=
    (overrides.map Prod.fst).filter (fun k => !(strStartsWith k "_"))
  let names := namesOf (commands.filter isUnknownCmd)
  names.map (fun ns => addUnknowns existing_keys ns overrides)

/-- The command view consumed by the classification rule chain of
`type_classification_rules.py`: `consoleData.defaultValue` (a string or
JSON null in the parsed dataset) and `consoleData.description`. -/
structure RuleCmd where
  defaultValue : Option String
  description : String
deriving DecidableEq

/-- `is_numeric_string` of `type_classification_rules.py` restricted to the
string-or-null values of the parsed dataset: can Python `float()` parse it?
(`inf`/`nan` literals are outside the float model.) -/
def is_numeric_string : Option String → Bool
  | Option.none => false
  | some s => (pyParseFloat s).isSome

/-- Outcome of a run of the classification rule chain: a type with its
ui default, or the uncaught `ValueError` of `int()` inside `rule_bitmask`
on a float-shaped default. -/
inductive RuleOutcome where
  | ok (type : String) (default : PyVal)
  | error
deriving DecidableEq

/-- The ordered rule chain `CLASSIFICATION_RULES` of
`type_classification_rules.py`, first match wins:
`rule_action`, `rule_bool`, `rule_bitmask`, `rule_numeric`, `rule_string`. -/
def classifyByRules (cmd : RuleCmd) : RuleOutcome :=
  match cmd.defaultValue with
  | Option.none => .ok "action" PyVal.none
  | some dv =>
    let ds := strLower dv
    if ds = "true" ∨ ds = "false" then
      .ok "bool" (.bool (ds = "true" ∨ ds = "1"))
    else if hasSub (strLower cmd.description) "bitmask" then
      if is_numeric_string (some dv) then
        match pyParseInt dv with
        | some n => .ok "bitmask" (.int n)
        | Option.none => .error
      else .ok "bitmask" (.int 0)
    else if is_numeric_string (some dv) then
      if dv.data.contains '.' then
        .ok "float" (.float ((pyParseFloat dv).getD (.ofNat 0)))
      else
        .ok "unknown_numeric" (.int (Frac.trunc ((pyParseFloat dv).getD (.ofNat 0))))
    else
      .ok "string" (.str dv)

/-- The `CommandStats` record of `numeric_detection.py`, as consumed by
`classify_command_by_usage`. -/
structure CommandStats where
  command : String
  total : Nat
  float_count : Nat
  int_count : Nat
  values : List String
  current_type : String
deriving DecidableEq

/-- The `float_ratio` property: observed float fraction, 0 on no data. -/
def CommandStats.float_ratio (s : CommandStats) : Frac :=
  if 0 < s.total then Frac.ratio s.float_count s.total else .ofNat 0

/-- The `is_all_int` property. -/
def CommandStats.is_all_int (s : CommandStats) : Bool := s.int_count = s.total

/-- `FLOAT_RATIO` of `numeric_detection_rules.py` (0.5). -/
def FLOAT_RATIO_CUTOFF : Frac := ⟨1, 2⟩

/-- `MIN_INT_OCCURRENCES` of `numeric_detection_rules.py`. -/
def MIN_INT_OCCURRENCES : Nat := 15

/-- `PROTECTED_TYPES` of `numeric_detection_rules.py` and
`numeric_detection.py`. -/
def PROTECTED_TYPES : List String := ["float", "bool", "bitmask", "action"]

/-- `classify_command_by_usage` of `numeric_detection_rules.py`: keep
protected types, reclassify to `float` on a high float ratio, to `unknown`
on an all-integer population with enough occurrences, else keep. -/
def classify_command_by_usage (stats : CommandStats) : String :=
  if stats.current_type ∈ PROTECTED_TYPES then stats.current_type
  else if FLOAT_RATIO_CUTOFF.blt stats.float_ratio then "float"
  else if MIN_INT_OCCURRENCES ≤ stats.total ∧ stats.is_all_int = true ∧
          ¬ (stats.current_type ∈ (["int", "unknown"] : List String)) then
    "unknown"
  else stats.current_type

/-- The `uiData` object as read by the popularity annotator:
`hideFromDefaultView` plus the remaining fields carried opaquely. -/
structure VisUiData where
  hideFromDefaultView : Option PyVal
  rest : List (String × PyVal)
deriving DecidableEq

/-- A command entry as read by the popularity pass of
`command_classification.py`. -/
structure VisEntry where
  name : Option String
  uiData : Option VisUiData
deriving DecidableEq

/-- `POPULARITY_THRESHOLD` of `popularity_rules.py` (10%). -/
def POPULARITY_THRESHOLD : Frac := ⟨1, 10⟩

/-- `should_mark_as_popular` of `popularity_rules.py`: guard against an
empty corpus, then compare the usage ratio against the threshold. -/
def should_mark_as_popular (command_count total_configs : Nat) : Bool :=
  if total_configs = 0 then false
  else POPULARITY_THRESHOLD.blt (Frac.ratio command_count total_configs)

/-- `should_update_visibility` of `popularity_rules.py`: update exactly when
the command is popular and currently hidden (missing `uiData` or missing
`hideFromDefaultView` count as hidden). -/
def should_update_visibility (entry : VisEntry) (is_popular : Bool) : Bool :=
  let hv :=
    match entry.uiData with
    | some ui => ui.hideFromDefaultView.getD (PyVal.bool true)
    | Option.none => PyVal.bool true
  is_popular && pyTruthy hv

/-- The popularity loop body of `command_classification.py` `main` for one
entry: entries without a (truthy) name are skipped; when the corpus is
non-empty, the appearance ratio beats the threshold, `uiData` exists and
the entry is currently hidden (truthy `hideFromDefaultView`, defaulting to
true), flip `hideFromDefaultView` to `False`; otherwise leave the entry
untouched. -/
def annotate_entry (counter : String → Nat) (total_cfgs : Nat)
    (threshold : Frac) (entry : VisEntry) : VisEntry :=
  match entry.name with
  | Option.none => entry
  | some cmd =>
    if cmd = "" then entry
    else
      if 0 < total_cfgs ∧ threshold.blt (Frac.ratio (counter cmd) total_cfgs) = true then
        match entry.uiData with
        | some ui =>
          if pyTruthy (ui.hideFromDefaultView.getD (PyVal.bool true)) then
            { entry with
              uiData := some { ui with hideFromDefaultView := some (PyVal.bool false) } }
          else entry
        | Option.none => entry
      else entry

/-- C10: `should_mark_as_popular` is total and returns `false` whenever the
total number of config files is 0 — the ratio is reached only behind the
explicit zero guard, so an empty corpus never marks any command popular. -/
theorem popularity_zero_corpus_safe :
    ∀ c : Nat, should_mark_as_popular c 0 = false :=
  fun _ => rfl

/-- C4 counterexample: a stats record with current type `command` and float
ratio 1 is reclassified to `float` by `classify_command_by_usage` — so
`command` is not among the protected types the claim lists. -/
theorem usage_protected_counterexample :
    classify_command_by_usage
        { command := "x", total := 1, float_count := 1, int_count := 0,
          values := [], current_type := "command" } = "float"
    ∧ (("float" : String) == "command") = false := by
  decide

/-- C4 (amended): `classify_command_by_usage` preserves every protected
type, where the protected set is `float, bool, bitmask, action` (the
`PROTECTED_TYPES` tuple of the code), regardless of the observed ratios and
counts. -/
theorem usage_protected_types_preserved (s : CommandStats)
    (h : s.current_type ∈ PROTECTED_TYPES) :
    classify_command_by_usage s = s.current_type := by
  unfold classify_command_by_usage
  rw [if_pos h]

/-- Witness for `usage_protected_types_preserved` at a concrete `float`
record with a high float ratio. -/
theorem usage_protected_types_preserved_witness :
    classify_command_by_usage
        { command := "host_timescale", total := 20, float_count := 20,
          int_count := 0, values := [], current_type := "float" } = "float" :=
  usage_protected_types_preserved _ (by decide)

/-- C3 counterexample: the rule chain classifies defaultValue `"0"` (and
`"1"`) with no `bitmask` in the description as `unknown_numeric`, not as
`bool` — `rule_bool` only matches `true`/`false`. -/
theorem rule_bool_counterexample :
    classifyByRules { defaultValue := some "0", description := "" } =
      .ok "unknown_numeric" (.int 0)
    ∧ classifyByRules { defaultValue := some "1", description := "" } =
      .ok "unknown_numeric" (.int 1)
    ∧ (("unknown_numeric" : String) == "bool") = false := by
  decide

/-- C6 counterexample: coercing the exponent-form string `"1e5"` to target
type `int` yields 0, although Python `float("1e5")` parses (to 100000), so
the coerced value is not the truncation of the parsed float. -/
theorem coerce_int_exponent_counterexample :
    coerce_default_value "int" (.str "1e5") = .int 0
    ∧ (pyParseFloat "1e5").map Frac.trunc = some 100000
    ∧ (((0 : Int) == 100000) = false) := by
  decide

/-- C2: evaluated on the vector-heuristic test input (an `unknown`-typed
command with default `"1.0 2.0 3.0"`, no overrides, no scraped data), the
resolver of `apply_type_improvements.py` returns the command completely
unchanged with type still `unknown` — there is no vector heuristic in the
code and no `heuristic_vectors_applied` counter in its statistics. -/
theorem no_vector_heuristic_eval :
    (improveCommand [] [] (Stats.init 1)
        { name := some "some_vector_cmd",
          uiData := some { type := some "unknown",
                           defaultValue := .str "1.0 2.0 3.0", rest := [] },
          consoleData := some { defaultValue := .str "1.0 2.0 3.0", rest := [] } }).1 =
      { name := some "some_vector_cmd",
        uiData := some { type := some "unknown",
                         defaultValue := .str "1.0 2.0 3.0", rest := [] },
        consoleData := some { defaultValue := .str "1.0 2.0 3.0", rest := [] } }
    ∧ (("unknown" : String) == "vector3") = false := by
  decide

/-- C3 (amended): in the classification rule chain, the bool rule matches
only a defaultValue that is case-insensitively `true` or `false` (before the
numeric rules), assigning type `bool` with boolean default true exactly when
the value is `true`; a command with defaultValue `"0"` or `"1"` and no
`bitmask` in its description is classified `unknown_numeric` with the
corresponding integer default, not `bool`. -/
theorem rule_chain_bool_amended (cmd : RuleCmd) (dv : String)
    (h : cmd.defaultValue = some dv) :
    (strLower dv = "true" ∨ strLower dv = "false" →
        classifyByRules cmd = .ok "bool" (.bool (strLower dv = "true")))
    ∧ ((dv = "0" ∨ dv = "1") →
        hasSub (strLower cmd.description) "bitmask" = false →
        classifyByRules cmd = .ok "unknown_numeric" (.int (if dv = "1" then 1 else 0))) := by
  rcases cmd with ⟨dv0, desc⟩
  simp only at h
  subst h
  constructor
  · intro hb
    simp only [classifyByRules]
    rcases hb with hb | hb <;> rw [hb] <;> simp
  · intro h01 hbm
    simp only at hbm
    rcases h01 with h01 | h01 <;> subst h01 <;> simp [classifyByRules, hbm] <;> decide

/-- Witness for `rule_chain_bool_amended` at the concrete defaults `"True"`
and `"0"`. -/
theorem rule_chain_bool_amended_witness :
    classifyByRules { defaultValue := some "True", description := "" } =
      .ok "bool" (.bool true)
    ∧ classifyByRules { defaultValue := some "0", description := "no flags here" } =
      .ok "unknown_numeric" (.int 0) := by
  constructor
  · have h := (rule_chain_bool_amended
      { defaultValue := some "True", description := "" } "True" rfl).1 (by decide)
    rw [h]; decide
  · have h := (rule_chain_bool_amended
      { defaultValue := some "0", description := "no flags here" } "0" rfl).2
      (Or.inl rfl) (by decide)
    rw [h]; decide

/-- C6 (amended): when coercing a string default to target type `int`,
`bitmask` or `uint`, only strings containing a literal `.` are parsed as a
float and truncated toward zero; strings without `.` are parsed directly as
integer literals (so exponent forms like `"1e5"` coerce to 0), and
unparseable strings yield 0 in either branch. Target types `uint32` and
`uint64` are not coerced at all: string defaults pass through unchanged. -/
theorem coerce_int_amended (t s : String)
    (ht : t = "int" ∨ t = "bitmask" ∨ t = "uint") :
    (∀ q : Frac, s.data.contains '.' = true → pyParseFloat s = some q →
        coerce_default_value t (.str s) = .int q.trunc)
    ∧ (s.data.contains '.' = true → pyParseFloat s = Option.none →
        coerce_default_value t (.str s) = .int 0)
    ∧ (∀ n : Int, s.data.contains '.' = false → pyParseInt s = some n →
        coerce_default_value t (.str s) = .int n)
    ∧ (s.data.contains '.' = false → pyParseInt s = Option.none →
        coerce_default_value t (.str s) = .int 0)
    ∧ coerce_default_value "uint32" (.str s) = .str s
    ∧ coerce_default_value "uint64" (.str s) = .str s := by
  refine ⟨?_, ?_, ?_, ?_, ?_, ?_⟩
  · intro q hdot hq
    have hmem : '.' ∈ s.data := by simpa using hdot
    rcases ht with ht | ht | ht <;> subst ht <;>
      simp [coerce_default_value, hq, hmem]
  · intro hdot hq
    have hmem : '.' ∈ s.data := by simpa using hdot
    rcases ht with ht | ht | ht <;> subst ht <;>
      simp [coerce_default_value, hq, hmem]
  · intro n hdot hq
    have hmem : '.' ∉ s.data := by simpa using hdot
    rcases ht with ht | ht | ht <;> subst ht <;>
      simp [coerce_default_value, hq, hmem]
  · intro hdot hq
    have hmem : '.' ∉ s.data := by simpa using hdot
    rcases ht with ht | ht | ht <;> subst ht <;>
      simp [coerce_default_value, hq, hmem]
  · simp [coerce_default_value]
  · simp [coerce_default_value]

/-- Witness for `coerce_int_amended` at target `int` and the concrete
dotted string `"7.9"` (truncates to 7). -/
theorem coerce_int_amended_witness :
    coerce_default_value "int" (.str "7.9") = .int 7 := by
  have h := (coerce_int_amended "int" "7.9" (Or.inl rfl)).1 ⟨79, 10⟩
    (by decide) (by decide)
  rw [h]; decide

/-- A non-empty candidate type written by `applyToUi` always ends up in the
`type` field, whatever the coercion branch does. -/
theorem applyToUi_type_some (ui : UiData) (ct : Option String) (d : PyVal)
    (st : Stats) (t : String) (h : ¬ (t = "")) :
    (applyToUi ui ct d (some t) st).1.type = some t := by
  simp only [applyToUi]
  rw [if_pos h]
  repeat' split
  all_goals rfl

/-- C5: a scraped type `bool` is applied to an `unknown`-typed command (not
covered by a manual override) exactly when the command's stored default is a
valid bool token — a bool, a number equal to 0 or 1, or one of the strings
`0/1/true/false` up to case and whitespace; otherwise the command is
returned unchanged and the rejection is counted in
`bool_unparseable_skipped`. -/
theorem scraped_bool_validation (mo sc : List (String × String)) (st : Stats)
    (n : String) (ui : UiData) (cd : Option ConsoleData)
    (hmo : List.lookup n mo = Option.none)
    (hsc : List.lookup n sc = some "bool")
    (hty : ui.type = some "unknown") :
    (((improveCommand mo sc st ⟨some n, some ui, cd⟩).1.uiData.map UiData.type
        = some (some "bool")) ↔ is_valid_bool_value ui.defaultValue = true)
    ∧ (is_valid_bool_value ui.defaultValue = false →
        (improveCommand mo sc st ⟨some n, some ui, cd⟩).1 = ⟨some n, some ui, cd⟩
        ∧ (improveCommand mo sc st ⟨some n, some ui, cd⟩).2.bool_unparseable_skipped
            = st.bool_unparseable_skipped + 1) := by
  obtain ⟨uity, uidef, uirest⟩ := ui
  change uity = some "unknown" at hty
  subst hty
  have hcs : chooseSource mo sc (some n) (some "unknown") st =
      some (some "bool",
            { st with scraped_types_applied := st.scraped_types_applied + 1 }) := by
    simp [chooseSource, hmo, hsc]
  cases hv : is_valid_bool_value uidef with
  | false =>
    have hav : applyValidations uidef
          ((Option.map ConsoleData.defaultValue cd).getD PyVal.none)
          (some "bool")
          { st with scraped_types_applied := st.scraped_types_applied + 1 } =
        (Option.none,
         { st with scraped_types_applied := st.scraped_types_applied + 1,
                   bool_unparseable_skipped := st.bool_unparseable_skipped + 1 }) := by
      simp [applyValidations, hv]
    simp [improveCommand, hcs, hav, applyToUi, bumpUnknown, strTruthy]
  | true =>
    have hav : applyValidations uidef
          ((Option.map ConsoleData.defaultValue cd).getD PyVal.none)
          (some "bool")
          { st with scraped_types_applied := st.scraped_types_applied + 1 } =
        (some "bool",
         { st with scraped_types_applied := st.scraped_types_applied + 1 }) := by
      simp [applyValidations, hv]
    simp [improveCommand, hcs, hav, applyToUi_type_some]

/-- Witness for `scraped_bool_validation`: a command with default `"5"` and
scraped type `bool` stays `unknown` and the rejection is counted. -/
theorem scraped_bool_validation_witness :
    (improveCommand [] [("unres_cmd", "bool")] (Stats.init 1)
        ⟨some "unres_cmd", some ⟨some "unknown", .str "5", []⟩,
         some ⟨.str "5", []⟩⟩).1 =
      ⟨some "unres_cmd", some ⟨some "unknown", .str "5", []⟩, some ⟨.str "5", []⟩⟩
    ∧ (improveCommand [] [("unres_cmd", "bool")] (Stats.init 1)
        ⟨some "unres_cmd", some ⟨some "unknown", .str "5", []⟩,
         some ⟨.str "5", []⟩⟩).2.bool_unparseable_skipped =
      (Stats.init 1).bool_unparseable_skipped + 1 :=
  (scraped_bool_validation [] [("unres_cmd", "bool")] (Stats.init 1) "unres_cmd"
    ⟨some "unknown", .str "5", []⟩ (some ⟨.str "5", []⟩) rfl rfl rfl).2 (by decide)

/-- The surviving candidate type after the two strict validations, as a
single conditional. -/
theorem applyValidations_fst (d raw : PyVal) (T : String) (st : Stats) :
    (applyValidations d raw (some T) st).1 =
      (if (T = "bool" ∧ is_valid_bool_value d = false)
          ∨ (T = "command" ∧ ¬ (raw = PyVal.none) ∧ ¬ (strTrim (pyStr raw) = ""))
       then Option.none else some T) := by
  simp only [applyValidations]
  by_cases h1 : T = "bool" ∧ is_valid_bool_value d = false
  · simp [h1]
  · by_cases h2 : T = "command" ∧ ¬ (raw = PyVal.none) ∧ ¬ (strTrim (pyStr raw) = "")
    · simp [h1, h2]
    · simp [h1, h2]

/-- C1 counterexample: a command present in the manual override map with
override `bool` and stored default `"hello"` (not a boolean token) keeps its
current type `string` — the final type does not equal the normalized
override value `bool`. -/
theorem override_supremacy_counterexample :
    (improveCommand [("mat_x", "bool")] [] (Stats.init 1)
        { name := some "mat_x",
          uiData := some { type := some "string",
                           defaultValue := .str "hello", rest := [] },
          consoleData := some { defaultValue := .str "hello", rest := [] } }).1.uiData.map
        UiData.type = some (some "string")
    ∧ normalize_type "bool" = "bool"
    ∧ (("string" : String) == "bool") = false := by
  decide

/-- C1 (amended): for a command with `uiData` whose name is in the manual
override map, the final type equals the normalized override value, except
in three rejection cases where the current type is kept: the override
normalizes to `bool` while the stored default is not a valid bool token;
the override normalizes to `command` while the raw console default is
non-null and non-empty after stripping; or the override normalizes to the
empty (falsy) string. -/
theorem override_resolution_amended (mo sc : List (String × String)) (st : Stats)
    (n o : String) (ui : UiData) (cd : Option ConsoleData)
    (ho : List.lookup n mo = some o) :
    (improveCommand mo sc st ⟨some n, some ui, cd⟩).1.uiData.map UiData.type =
      some
        (if ((normalize_type o = "bool" ∧ is_valid_bool_value ui.defaultValue = false)
              ∨ (normalize_type o = "command"
                  ∧ ¬ ((cd.map ConsoleData.defaultValue).getD PyVal.none = PyVal.none)
                  ∧ ¬ (strTrim (pyStr ((cd.map ConsoleData.defaultValue).getD PyVal.none)) = "")))
            ∨ normalize_type o = ""
         then ui.type else some (normalize_type o)) := by
  obtain ⟨uity, uidef, uirest⟩ := ui
  have hcs : chooseSource mo sc (some n) uity st =
      some (some (normalize_type o),
            { st with manual_overrides_applied := st.manual_overrides_applied + 1 }) := by
    simp [chooseSource, ho]
  by_cases hb : (normalize_type o = "bool" ∧ is_valid_bool_value uidef = false)
      ∨ (normalize_type o = "command"
          ∧ ¬ ((cd.map ConsoleData.defaultValue).getD PyVal.none = PyVal.none)
          ∧ ¬ (strTrim (pyStr ((cd.map ConsoleData.defaultValue).getD PyVal.none)) = ""))
  · rw [if_pos (Or.inl hb)]
    simp [improveCommand, hcs, applyValidations_fst, hb, applyToUi]
  · by_cases h0 : normalize_type o = ""
    · rw [if_pos (Or.inr h0)]
      simp [improveCommand, hcs, applyValidations_fst, hb, h0, applyToUi]
    · rw [if_neg (not_or.mpr ⟨hb, h0⟩)]
      simp [improveCommand, hcs, applyValidations_fst, hb, h0, applyToUi_type_some]

/-- Witness for `override_resolution_amended`: the `skill -> int` override
is applied to an `unknown`-typed command. -/
theorem override_resolution_amended_witness :
    (improveCommand [("skill", "int")] [] (Stats.init 1)
        { name := some "skill",
          uiData := some { type := some "unknown",
                           defaultValue := .str "2", rest := [] },
          consoleData := some { defaultValue := .str "2", rest := [] } }).1.uiData.map
        UiData.type = some (some "int") := by
  have h := override_resolution_amended [("skill", "int")] [] (Stats.init 1)
    "skill" "int" { type := some "unknown", defaultValue := .str "2", rest := [] }
    (some { defaultValue := .str "2", rest := [] }) rfl
  rw [h]; decide

/-- `applyToUi` never touches the `rest` fields of the `uiData` object. -/
theorem applyToUi_rest (ui : UiData) (ct : Option String) (d : PyVal)
    (nt : Option String) (st : Stats) :
    (applyToUi ui ct d nt st).1.rest = ui.rest := by
  cases nt with
  | none => rfl
  | some t =>
    simp only [applyToUi]
    repeat' split
    all_goals rfl

/-- C8: the resolver loop body mutates at most `uiData.type` and
`uiData.defaultValue` — the command's name, its `consoleData` and all other
`uiData` fields are returned identical, and a command without `uiData` is
returned unmodified with the skip counted in `skipped_no_uidata`. -/
theorem improve_frame (mo sc : List (String × String)) (st : Stats) (cmd : Command) :
    ((improveCommand mo sc st cmd).1.name = cmd.name)
    ∧ ((improveCommand mo sc st cmd).1.consoleData = cmd.consoleData)
    ∧ ((improveCommand mo sc st cmd).1.uiData.map UiData.rest = cmd.uiData.map UiData.rest)
    ∧ (cmd.uiData = Option.none →
        (improveCommand mo sc st cmd).1 = cmd
        ∧ (improveCommand mo sc st cmd).2.skipped_no_uidata = st.skipped_no_uidata + 1) := by
  rcases cmd with ⟨nm, uio, cdo⟩
  cases uio with
  | none => simp [improveCommand]
  | some ui =>
    cases hcs : chooseSource mo sc nm ui.type st with
    | none => simp [improveCommand, hcs]
    | some p =>
      rcases p with ⟨nt0, st0⟩
      simp [improveCommand, hcs, applyToUi_rest]

/-- Witness for `improve_frame` at a command without `uiData`. -/
theorem improve_frame_witness :
    (improveCommand [] [] (Stats.init 1)
        { name := some "nouidata_cmd", uiData := Option.none,
          consoleData := Option.none }).1 =
      { name := some "nouidata_cmd", uiData := Option.none,
        consoleData := Option.none }
    ∧ (improveCommand [] [] (Stats.init 1)
        { name := some "nouidata_cmd", uiData := Option.none,
          consoleData := Option.none }).2.skipped_no_uidata =
      (Stats.init 1).skipped_no_uidata + 1 :=
  (improve_frame [] [] (Stats.init 1) _).2.2.2 rfl

/-- C7: the popularity annotator is monotonic in visibility — an entry whose
`hideFromDefaultView` is `false` is returned unchanged whatever the counts,
and in general the annotator either leaves the entry unchanged or flips a
currently-hidden popular command (ratio above the 10% threshold, per
`should_mark_as_popular`) to visible. -/
theorem popularity_monotonic (counter : String → Nat) (total : Nat) (entry : VisEntry) :
    (∀ ui : VisUiData, entry.uiData = some ui →
        ui.hideFromDefaultView = some (PyVal.bool false) →
        annotate_entry counter total POPULARITY_THRESHOLD entry = entry)
    ∧ (annotate_entry counter total POPULARITY_THRESHOLD entry = entry
        ∨ ∃ cmd ui, entry.name = some cmd ∧ entry.uiData = some ui ∧
            should_mark_as_popular (counter cmd) total = true ∧
            pyTruthy (ui.hideFromDefaultView.getD (PyVal.bool true)) = true ∧
            annotate_entry counter total POPULARITY_THRESHOLD entry =
              { entry with
                uiData := some { ui with hideFromDefaultView := some (PyVal.bool false) } }) := by
  rcases entry with ⟨nm, uid⟩
  constructor
  · intro ui' hui hhf
    change uid = some ui' at hui
    subst hui
    cases nm with
    | none => rfl
    | some cmd => simp [annotate_entry, hhf, pyTruthy]
  · cases nm with
    | none => exact Or.inl rfl
    | some cmd =>
      by_cases hc : cmd = ""
      · exact Or.inl (by simp [annotate_entry, hc])
      · by_cases hpop : 0 < total ∧
            POPULARITY_THRESHOLD.blt (Frac.ratio (counter cmd) total) = true
        · cases uid with
          | none => exact Or.inl (by simp [annotate_entry, hc, hpop])
          | some ui =>
            by_cases hh : pyTruthy (ui.hideFromDefaultView.getD (PyVal.bool true)) = true
            · refine Or.inr ⟨cmd, ui, rfl, rfl, ?_, hh, ?_⟩
              · unfold should_mark_as_popular
                rw [if_neg (Nat.pos_iff_ne_zero.mp hpop.1)]
                exact hpop.2
              · simp [annotate_entry, hc, hpop, hh]
            · exact Or.inl (by simp [annotate_entry, hc, hpop, hh])
        · exact Or.inl (by simp [annotate_entry, hc, hpop])

/-- Witness for `popularity_monotonic`: a visible command with zero corpus
occurrences stays visible. -/
theorem popularity_monotonic_witness :
    annotate_entry (fun _ => 0) 10 POPULARITY_THRESHOLD
        { name := some "visible_cmd",
          uiData := some { hideFromDefaultView := some (PyVal.bool false), rest := [] } } =
      { name := some "visible_cmd",
        uiData := some { hideFromDefaultView := some (PyVal.bool false), rest := [] } } :=
  (popularity_monotonic (fun _ => 0) 10 _).1
    { hideFromDefaultView := some (PyVal.bool false), rest := [] } rfl rfl

/-- Lookup after a Python-style dict assignment on an association list. -/
theorem lookup_dictInsert (c v k : String) (l : List (String × String)) :
    List.lookup k (dictInsert c v l) = if k = c then some v else List.lookup k l := by
  induction l with
  | nil =>
    by_cases hkc : k = c
    · simp [dictInsert, List.lookup, hkc]
    · have hb : (k == c) = false := beq_eq_false_iff_ne.mpr hkc
      simp [dictInsert, List.lookup, hkc, hb]
  | cons hd tl ih =>
    rcases hd with ⟨k', v'⟩
    by_cases hkc : k' = c
    · subst hkc
      by_cases hkk : k = k'
      · simp [dictInsert, List.lookup, hkk]
      · have hb : (k == k') = false := beq_eq_false_iff_ne.mpr hkk
        simp [dictInsert, List.lookup, hkk, hb]
    · by_cases hkk : k = k'
      · subst hkk
        have hkc' : ¬ (k = c) := fun he => hkc he
        simp [dictInsert, hkc, List.lookup, hkc']
      · have hb : (k == k') = false := beq_eq_false_iff_ne.mpr hkk
        simp [dictInsert, hkc, List.lookup, hb, ih]

/-- The export loop never disturbs a binding whose key is among the
pre-computed existing keys. -/
theorem addUnknowns_preserves (ek ns : List String)
    (ov : List (String × String)) (k v : String)
    (hk : ek.contains k = true) (h : List.lookup k ov = some v) :
    List.lookup k (addUnknowns ek ns ov) = some v := by
  induction ns generalizing ov with
  | nil => simpa [addUnknowns] using h
  | cons c rest ih =>
    simp only [addUnknowns]
    cases hc : ek.contains c with
    | true => exact ih _ h
    | false =>
      apply ih
      show List.lookup k (dictInsert c "unknown" ov) = some v
      rw [lookup_dictInsert]
      have hne : ¬ (k = c) := by
        intro he
        subst he
        rw [hk] at hc
        exact Bool.noConfusion hc
      rw [if_neg hne]
      exact h

/-- Any binding visible after the export loop either existed before or is a
fresh `'unknown'` placeholder for one of the walked names. -/
theorem addUnknowns_lookup (ek ns : List String) (ov : List (String × String))
    (k v' : String)
    (h : List.lookup k (addUnknowns ek ns ov) = some v') :
    List.lookup k ov = some v' ∨ (v' = "unknown" ∧ k ∈ ns) := by
  induction ns generalizing ov with
  | nil => exact Or.inl (by simpa [addUnknowns] using h)
  | cons c rest ih =>
    simp only [addUnknowns] at h
    rcases ih _ h with h' | h'
    · cases hc : ek.contains c with
      | true =>
        rw [hc] at h'
        simp only [if_pos] at h'
        exact Or.inl h'
      | false =>
        rw [hc] at h'
        simp only [Bool.false_eq_true, if_false] at h'
        rw [lookup_dictInsert] at h'
        by_cases hkc : k = c
        · rw [if_pos hkc] at h'
          refine Or.inr ⟨(Option.some.inj h').symm, ?_⟩
          rw [hkc]
          exact List.mem_cons_self c rest
        · rw [if_neg hkc] at h'
          exact Or.inl h'
    · exact Or.inr ⟨h'.1, List.mem_cons_of_mem _ h'.2⟩

/-- A key bound in the overrides map and not starting with an underscore is
among the pre-computed existing (non-metadata) keys. -/
theorem keyInFiltered (ov : List (String × String)) (k v : String)
    (h : List.lookup k ov = some v) (hn : strStartsWith k "_" = false) :
    ((ov.map Prod.fst).filter (fun x => !(strStartsWith x "_"))).contains k = true := by
  induction ov with
  | nil => simp [List.lookup] at h
  | cons hd tl ih =>
    rcases hd with ⟨k', v'⟩
    by_cases hkk : k = k'
    · subst hkk
      simp [List.filter_cons, hn]
    · have hb : (k == k') = false := beq_eq_false_iff_ne.mpr hkk
      have h' : List.lookup k tl = some v := by
        simpa [List.lookup, hb] using h
      have hm := List.elem_iff.mp (ih h')
      refine List.elem_iff.mpr ?_
      simp only [List.map_cons, List.filter_cons]
      split
      · exact List.mem_cons_of_mem _ hm
      · exact hm

/-- When every command has a name, `namesOf` returns exactly the
`filterMap` of the names. -/
theorem namesOf_eq (l : List Command) (ns : List String)
    (h : namesOf l = some ns) : ns = l.filterMap Command.name := by
  induction l generalizing ns with
  | nil =>
    simp only [namesOf, Option.some.injEq] at h
    simp [← h]
  | cons c tl ih =>
    cases hn : c.name with
    | none => simp [namesOf, hn] at h
    | some nm =>
      cases htl : namesOf tl with
      | none => simp [namesOf, hn, htl] at h
      | some bs =>
        simp only [namesOf, hn, htl, Option.some.injEq] at h
        rw [List.filterMap_cons, hn, ← ih bs htl, ← h]

/-- C9: `export_unknown_overrides` never changes or removes an existing
override entry — every non-metadata key keeps its value — and the only keys
it can add are names of `unknown`-typed commands that were not bound before,
each mapped to the placeholder `'unknown'`. -/
theorem export_preserves_overrides (overrides : List (String × String))
    (cmds : List Command) (d' : List (String × String))
    (h : export_unknown_overrides overrides cmds = some d') :
    (∀ k v : String, strStartsWith k "_" = false →
        List.lookup k overrides = some v → List.lookup k d' = some v)
    ∧ (∀ k v' : String, List.lookup k overrides = Option.none →
        List.lookup k d' = some v' → v' = "unknown" ∧ k ∈ unknownNames cmds) := by
  simp only [export_unknown_overrides] at h
  cases hns : namesOf (cmds.filter isUnknownCmd) with
  | none => rw [hns] at h; simp at h
  | some ns =>
    rw [hns] at h
    simp only [Option.map_some'] at h
    obtain rfl : addUnknowns
        ((overrides.map Prod.fst).filter (fun k => !(strStartsWith k "_")))
        ns overrides = d' := Option.some.inj h
    have hns' := namesOf_eq _ _ hns
    constructor
    · intro k v hk hkv
      exact addUnknowns_preserves _ _ _ _ _ (keyInFiltered _ _ _ hkv hk) hkv
    · intro k v' hnone hlk
      rcases addUnknowns_lookup _ _ _ _ _ hlk with h' | h'
      · rw [hnone] at h'
        exact absurd h' (by simp)
      · refine ⟨h'.1, ?_⟩
        show k ∈ (cmds.filter isUnknownCmd).filterMap Command.name
        rw [← hns']
        exact h'.2

/-- Witness for `export_preserves_overrides`: the pre-existing
`skill -> int` binding survives an export that adds a placeholder. -/
theorem export_preserves_overrides_witness :
    List.lookup "skill"
        ((export_unknown_overrides [("skill", "int"), ("_comment", "meta")]
            [{ name := some "new_unknown_cmd",
               uiData := some { type := some "unknown",
                                defaultValue := .str "x", rest := [] },
               consoleData := Option.none }]).getD []) = some "int" := by
  have he : export_unknown_overrides [("skill", "int"), ("_comment", "meta")]
      [{ name := some "new_unknown_cmd",
         uiData := some { type := some "unknown",
                          defaultValue := .str "x", rest := [] },
         consoleData := Option.none }] =
      some [("skill", "int"), ("_comment", "meta"), ("new_unknown_cmd", "unknown")] := by
    decide
  have h := (export_preserves_overrides _ _ _ he).1 "skill" "int" (by decide) (by decide)
  rw [he]
  exact h

end ConfigGen
